import Mathlib

/-!
Verification development for `awx/sso/backends.py`.

The file shallowly embeds the SSO backend module: the LDAP group-to-role
synchronization (`_update_m2m_from_groups`, `on_populate_user`), the
settings construction (`LDAPSettings.__init__`, `_on_setting_changed`),
and the gated `authenticate` / `get_user` methods of the four backends
(LDAP, RADIUS, TACACS+, SAML).  Python dynamic values are embedded as
explicit inductive types, membership sets as `Finset Nat` (users are
identified by numbers), Python dicts as association lists or total
functions, and the observable effects of a method call (returned value,
raised exception, log records, external-client calls) as a record.
-/

/-- The shapes the `admins` / `users` value of a mapping entry may take in
Python: `None`, a boolean, a single string, or a list whose elements are
strings or arbitrary non-string values. -/
inductive GEntry : Type
  | str : String → GEntry
  | other : GEntry
deriving DecidableEq

/-- A Python value appearing as the `opts` argument of
`_update_m2m_from_groups`: `None`, a `bool`, a string, or a list. -/
inductive Opts : Type
  | none : Opts
  | bool : Bool → Opts
  | str : String → Opts
  | list : List GEntry → Opts
deriving DecidableEq

/-- Python truthiness of an `opts` value (`not opts` in the source):
`None`, `False`, the empty string and the empty list are falsy. -/
def pyTruthy : Opts → Bool
  | Opts.none => false
  | Opts.bool b => b
  | Opts.str s => !(s == "")
  | Opts.list es => !es.isEmpty

/-- The `should_add` flag computed by `_update_m2m_from_groups`
(backends.py lines 272-286): falsy opts leave it `False`; `True` sets it;
a (non-empty) string is wrapped into a one-element list; for a list each
non-string element is skipped and each string element is tested against
`ldap_user._get_groups().is_member_of`.  `isM` is the membership oracle. -/
def shouldAdd (isM : String → Bool) (opts : Opts) : Bool :=
  if pyTruthy opts = false then false
  else
    match opts with
    | Opts.none => false
    | Opts.bool _ => true
    | Opts.str s => isM s
    | Opts.list es =>
        es.any (fun g =>
          match g with
          | GEntry.str sg => isM sg
          | GEntry.other => false)

/-- `_update_m2m_from_groups(user, ldap_user, rel, opts, remove)`
(backends.py lines 268-290): `opts is None` returns with no change;
otherwise on `should_add` the user is added to the relation, else if
`remove` the user is removed, else the relation is untouched. -/
def updateM2MFromGroups (isM : String → Bool) (user : Nat)
    (rel : Finset Nat) (opts : Opts) (remove : Bool) : Finset Nat :=
  match opts with
  | Opts.none => rel
  | o =>
      if shouldAdd isM o then insert user rel
      else if remove then rel.erase user
      else rel

/-- Applying `_update_m2m_from_groups` twice with the same oracle, opts
and remove flag is the same as applying it once. -/
theorem updateM2MFromGroups_idem (isM : String → Bool) (user : Nat)
    (rel : Finset Nat) (opts : Opts) (remove : Bool) :
    updateM2MFromGroups isM user (updateM2MFromGroups isM user rel opts remove) opts remove
      = updateM2MFromGroups isM user rel opts remove := by
  cases opts with
  | none => rfl
  | bool b =>
      simp only [updateM2MFromGroups]
      by_cases h : shouldAdd isM (Opts.bool b) = true
      · simp [h]
      · simp only [Bool.not_eq_true] at h
        by_cases hr : remove <;> simp [h, hr, Finset.erase_idem]
  | str s =>
      simp only [updateM2MFromGroups]
      by_cases h : shouldAdd isM (Opts.str s) = true
      · simp [h]
      · simp only [Bool.not_eq_true] at h
        by_cases hr : remove <;> simp [h, hr, Finset.erase_idem]
  | list es =>
      simp only [updateM2MFromGroups]
      by_cases h : shouldAdd isM (Opts.list es) = true
      · simp [h]
      · simp only [Bool.not_eq_true] at h
        by_cases hr : remove <;> simp [h, hr, Finset.erase_idem]

/-- The values read out of one entry of the `ORGANIZATION_MAP` dict
(`org_opts` in `on_populate_user`): `remove`, `remove_admins` and
`remove_users` are `Option.none` when the key is absent (Python
`dict.get` default), `admins` and `users` default to Python `None`. -/
structure OrgOpts : Type where
  remove : Option Bool := Option.none
  admins : Opts := Opts.none
  removeAdmins : Option Bool := Option.none
  users : Opts := Opts.none
  removeUsers : Option Bool := Option.none
deriving DecidableEq

/-- The values read out of one entry of the `TEAM_MAP` dict
(`team_opts` in `on_populate_user`). -/
structure TeamOpts : Type where
  organization : Option String := Option.none
  users : Opts := Opts.none
  remove : Option Bool := Option.none
deriving DecidableEq

/-- The persistent state touched by `on_populate_user`: which
organizations and teams exist (teams are keyed by team name and
organization name, as in `Team.objects.get_or_create(name=...,
organization=org)`), the admin/member role membership sets, the user's
stored `profile.ldap_dn`, and a count of `profile.save()` calls. -/
@[ext]
structure SyncState : Type where
  orgExists : String → Bool
  teamExists : String → String → Bool
  orgAdmins : String → Finset Nat
  orgMembers : String → Finset Nat
  teamMembers : String → String → Finset Nat
  ldapDn : String
  profileSaves : Nat

/-- One iteration of the `ORGANIZATION_MAP` loop of `on_populate_user`
(backends.py lines 310-320): get-or-create the organization, compute the
remove flags (`remove` defaults to `True`; `remove_admins` and
`remove_users` each default to `remove`), then run
`_update_m2m_from_groups` on `org.admin_role.members` with the `admins`
opts and on `org.member_role.members` with the `users` opts. -/
def processOrg (isM : String → Bool) (user : Nat)
    (s : SyncState) (p : String × OrgOpts) : SyncState :=
  let remove := p.2.remove.getD true
  let removeAdmins := p.2.removeAdmins.getD remove
  let removeUsers := p.2.removeUsers.getD remove
  { s with
    orgExists := fun n => if n = p.1 then true else s.orgExists n
    orgAdmins := fun n =>
      if n = p.1 then updateM2MFromGroups isM user (s.orgAdmins p.1) p.2.admins removeAdmins
      else s.orgAdmins n
    orgMembers := fun n =>
      if n = p.1 then updateM2MFromGroups isM user (s.orgMembers p.1) p.2.users removeUsers
      else s.orgMembers n }

/-- One iteration of the `TEAM_MAP` loop of `on_populate_user`
(backends.py lines 324-332): entries without an `organization` key are
skipped; otherwise get-or-create the organization and the team, then run
`_update_m2m_from_groups` on `team.member_role.members` with the `users`
opts and `remove` flag (defaulting to `True`). -/
def processTeam (isM : String → Bool) (user : Nat)
    (s : SyncState) (p : String × TeamOpts) : SyncState :=
  match p.2.organization with
  | Option.none => s
  | Option.some orgName =>
      let remove := p.2.remove.getD true
      { s with
        orgExists := fun n => if n = orgName then true else s.orgExists n
        teamExists := fun t n =>
          if t = p.1 ∧ n = orgName then true else s.teamExists t n
        teamMembers := fun t n =>
          if t = p.1 ∧ n = orgName then
            updateM2MFromGroups isM user (s.teamMembers p.1 orgName) p.2.users remove
          else s.teamMembers t n }

/-- The profile update at the end of `on_populate_user` (backends.py
lines 334-338): the stored `ldap_dn` is overwritten and the profile
saved exactly when it differs from the session's `ldap_user.dn`. -/
def updateProfile (dn : String) (s : SyncState) : SyncState :=
  if s.ldapDn ≠ dn then
    { s with ldapDn := dn, profileSaves := s.profileSaves + 1 }
  else s

/-- `on_populate_user(sender, **kwargs)` (backends.py lines 293-338):
after prefetching the group snapshot (the oracle `isM` together with
`dn` stands for the prefetched `ldap_user`), process every
`ORGANIZATION_MAP` entry, then every `TEAM_MAP` entry, then reconcile
the stored `ldap_dn`. -/
def onPopulateUser (isM : String → Bool) (dn : String)
    (orgMap : List (String × OrgOpts)) (teamMap : List (String × TeamOpts))
    (user : Nat) (s : SyncState) : SyncState :=
  updateProfile dn
    (List.foldl (processTeam isM user)
      (List.foldl (processOrg isM user) s orgMap) teamMap)

@[simp]
theorem processOrg_orgExists (isM : String → Bool) (user : Nat)
    (s : SyncState) (p : String × OrgOpts) (n : String) :
    (processOrg isM user s p).orgExists n = if n = p.1 then true else s.orgExists n := rfl

@[simp]
theorem processOrg_orgAdmins (isM : String → Bool) (user : Nat)
    (s : SyncState) (p : String × OrgOpts) (n : String) :
    (processOrg isM user s p).orgAdmins n =
      if n = p.1 then
        updateM2MFromGroups isM user (s.orgAdmins p.1) p.2.admins
          (p.2.removeAdmins.getD (p.2.remove.getD true))
      else s.orgAdmins n := rfl

@[simp]
theorem processOrg_orgMembers (isM : String → Bool) (user : Nat)
    (s : SyncState) (p : String × OrgOpts) (n : String) :
    (processOrg isM user s p).orgMembers n =
      if n = p.1 then
        updateM2MFromGroups isM user (s.orgMembers p.1) p.2.users
          (p.2.removeUsers.getD (p.2.remove.getD true))
      else s.orgMembers n := rfl

@[simp]
theorem processOrg_teamExists (isM : String → Bool) (user : Nat)
    (s : SyncState) (p : String × OrgOpts) :
    (processOrg isM user s p).teamExists = s.teamExists := rfl

@[simp]
theorem processOrg_teamMembers (isM : String → Bool) (user : Nat)
    (s : SyncState) (p : String × OrgOpts) :
    (processOrg isM user s p).teamMembers = s.teamMembers := rfl

@[simp]
theorem processOrg_ldapDn (isM : String → Bool) (user : Nat)
    (s : SyncState) (p : String × OrgOpts) :
    (processOrg isM user s p).ldapDn = s.ldapDn := rfl

@[simp]
theorem processOrg_profileSaves (isM : String → Bool) (user : Nat)
    (s : SyncState) (p : String × OrgOpts) :
    (processOrg isM user s p).profileSaves = s.profileSaves := rfl

theorem processTeam_eq_of_no_org (isM : String → Bool) (user : Nat)
    (s : SyncState) (p : String × TeamOpts) (h : p.2.organization = Option.none) :
    processTeam isM user s p = s := by
  unfold processTeam
  rw [h]

theorem processTeam_eq_of_org (isM : String → Bool) (user : Nat)
    (s : SyncState) (p : String × TeamOpts) (orgName : String)
    (h : p.2.organization = Option.some orgName) :
    processTeam isM user s p =
      { s with
        orgExists := fun n => if n = orgName then true else s.orgExists n
        teamExists := fun t n =>
          if t = p.1 ∧ n = orgName then true else s.teamExists t n
        teamMembers := fun t n =>
          if t = p.1 ∧ n = orgName then
            updateM2MFromGroups isM user (s.teamMembers p.1 orgName) p.2.users
              (p.2.remove.getD true)
          else s.teamMembers t n } := by
  unfold processTeam
  rw [h]

@[simp]
theorem processTeam_orgAdmins (isM : String → Bool) (user : Nat)
    (s : SyncState) (p : String × TeamOpts) :
    (processTeam isM user s p).orgAdmins = s.orgAdmins := by
  cases h : p.2.organization with
  | none => rw [processTeam_eq_of_no_org isM user s p h]
  | some orgName => rw [processTeam_eq_of_org isM user s p orgName h]

@[simp]
theorem processTeam_orgMembers (isM : String → Bool) (user : Nat)
    (s : SyncState) (p : String × TeamOpts) :
    (processTeam isM user s p).orgMembers = s.orgMembers := by
  cases h : p.2.organization with
  | none => rw [processTeam_eq_of_no_org isM user s p h]
  | some orgName => rw [processTeam_eq_of_org isM user s p orgName h]

@[simp]
theorem processTeam_ldapDn (isM : String → Bool) (user : Nat)
    (s : SyncState) (p : String × TeamOpts) :
    (processTeam isM user s p).ldapDn = s.ldapDn := by
  cases h : p.2.organization with
  | none => rw [processTeam_eq_of_no_org isM user s p h]
  | some orgName => rw [processTeam_eq_of_org isM user s p orgName h]

@[simp]
theorem processTeam_profileSaves (isM : String → Bool) (user : Nat)
    (s : SyncState) (p : String × TeamOpts) :
    (processTeam isM user s p).profileSaves = s.profileSaves := by
  cases h : p.2.organization with
  | none => rw [processTeam_eq_of_no_org isM user s p h]
  | some orgName => rw [processTeam_eq_of_org isM user s p orgName h]

theorem updateProfile_ldapDn (dn : String) (s : SyncState) :
    (updateProfile dn s).ldapDn = dn := by
  unfold updateProfile
  by_cases h : s.ldapDn = dn <;> simp [h]

theorem updateProfile_profileSaves (dn : String) (s : SyncState) :
    (updateProfile dn s).profileSaves =
      if s.ldapDn = dn then s.profileSaves else s.profileSaves + 1 := by
  unfold updateProfile
  by_cases h : s.ldapDn = dn <;> simp [h]

theorem updateProfile_of_dn_eq (dn : String) (s : SyncState) (h : s.ldapDn = dn) :
    updateProfile dn s = s := by
  unfold updateProfile
  simp [h]

theorem foldOrgs_ldapDn (isM : String → Bool) (user : Nat)
    (l : List (String × OrgOpts)) (s : SyncState) :
    (List.foldl (processOrg isM user) s l).ldapDn = s.ldapDn := by
  induction l generalizing s with
  | nil => rfl
  | cons p t ih => rw [List.foldl_cons, ih, processOrg_ldapDn]

theorem foldOrgs_profileSaves (isM : String → Bool) (user : Nat)
    (l : List (String × OrgOpts)) (s : SyncState) :
    (List.foldl (processOrg isM user) s l).profileSaves = s.profileSaves := by
  induction l generalizing s with
  | nil => rfl
  | cons p t ih => rw [List.foldl_cons, ih, processOrg_profileSaves]

theorem foldTeams_ldapDn (isM : String → Bool) (user : Nat)
    (l : List (String × TeamOpts)) (s : SyncState) :
    (List.foldl (processTeam isM user) s l).ldapDn = s.ldapDn := by
  induction l generalizing s with
  | nil => rfl
  | cons p t ih => rw [List.foldl_cons, ih, processTeam_ldapDn]

theorem foldTeams_profileSaves (isM : String → Bool) (user : Nat)
    (l : List (String × TeamOpts)) (s : SyncState) :
    (List.foldl (processTeam isM user) s l).profileSaves = s.profileSaves := by
  induction l generalizing s with
  | nil => rfl
  | cons p t ih => rw [List.foldl_cons, ih, processTeam_profileSaves]

/-- Pushing a single step past a fold, given that the step commutes with
every element of the list. -/
theorem foldl_step_comm {σ α : Type} (f : σ → α → σ) (a : α)
    (l : List α) (hc : ∀ b ∈ l, ∀ s, f (f s a) b = f (f s b) a) (s : σ) :
    f (List.foldl f s l) a = List.foldl f (f s a) l := by
  induction l generalizing s with
  | nil => rfl
  | cons b t ih =>
      rw [List.foldl_cons, List.foldl_cons,
        ih (fun c hc' s' => hc c (List.mem_cons_of_mem b hc') s'),
        hc b (List.mem_cons_self b t) s]

/-- A fold over pairwise-commuting, individually idempotent steps is
idempotent. -/
theorem foldl_self_idem {σ α : Type} (f : σ → α → σ) (l : List α)
    (hp : l.Pairwise (fun a b => ∀ s, f (f s a) b = f (f s b) a))
    (hi : ∀ a ∈ l, ∀ s, f (f s a) a = f s a) (s : σ) :
    List.foldl f (List.foldl f s l) l = List.foldl f s l := by
  induction l generalizing s with
  | nil => rfl
  | cons a t ih =>
      rw [List.foldl_cons, List.foldl_cons]
      have hpc := List.pairwise_cons.mp hp
      rw [foldl_step_comm f a t hpc.1 (f s a),
        hi a (List.mem_cons_self a t) s]
      exact ih hpc.2 (fun b hb s' => hi b (List.mem_cons_of_mem a hb) s') (f s a)

/-- Pushing one step of the first fold past the whole second fold. -/
theorem foldl_cross_step {σ α β : Type} (f : σ → α → σ) (g : σ → β → σ)
    (hc : ∀ a b s, g (f s a) b = f (g s b) a)
    (a : α) (lb : List β) (s : σ) :
    List.foldl g (f s a) lb = f (List.foldl g s lb) a := by
  induction lb generalizing s with
  | nil => rfl
  | cons b tb ihb => rw [List.foldl_cons, List.foldl_cons, hc a b s, ihb (g s b)]

/-- Two folds whose steps commute pairwise can be exchanged. -/
theorem foldl_foldl_comm {σ α β : Type} (f : σ → α → σ) (g : σ → β → σ)
    (hc : ∀ a b s, g (f s a) b = f (g s b) a)
    (la : List α) (lb : List β) (s : σ) :
    List.foldl g (List.foldl f s la) lb = List.foldl f (List.foldl g s lb) la := by
  induction la generalizing s with
  | nil => rfl
  | cons a t ih =>
      rw [List.foldl_cons, ih (f s a), List.foldl_cons,
        foldl_cross_step f g hc a lb s]

/-- A list whose key images are distinct is pairwise key-distinct. -/
theorem pairwise_key_ne_of_nodup_map {α κ : Type} (k : α → κ) (l : List α)
    (h : (l.map k).Nodup) : l.Pairwise (fun a b => k a ≠ k b) := by
  rw [List.Nodup, List.pairwise_map] at h
  exact h

theorem processOrg_idem (isM : String → Bool) (user : Nat)
    (s : SyncState) (p : String × OrgOpts) :
    processOrg isM user (processOrg isM user s p) p = processOrg isM user s p := by
  apply SyncState.ext
  · funext n
    simp only [processOrg_orgExists]
    by_cases h : n = p.1 <;> simp [h]
  · rfl
  · funext n
    simp only [processOrg_orgAdmins]
    by_cases h : n = p.1 <;> simp [h, updateM2MFromGroups_idem]
  · funext n
    simp only [processOrg_orgMembers]
    by_cases h : n = p.1 <;> simp [h, updateM2MFromGroups_idem]
  · rfl
  · rfl
  · rfl

theorem processOrg_comm (isM : String → Bool) (user : Nat)
    (s : SyncState) (p q : String × OrgOpts) (hne : p.1 ≠ q.1) :
    processOrg isM user (processOrg isM user s p) q
      = processOrg isM user (processOrg isM user s q) p := by
  apply SyncState.ext
  · funext n
    simp only [processOrg_orgExists]
    by_cases h1 : n = p.1 <;> by_cases h2 : n = q.1 <;> simp [h1, h2]
  · rfl
  · funext n
    simp only [processOrg_orgAdmins]
    by_cases h1 : n = p.1 <;> by_cases h2 : n = q.1 <;>
      first
        | exact absurd (h1.symm.trans h2) hne
        | simp [h1, h2, hne, Ne.symm hne]
  · funext n
    simp only [processOrg_orgMembers]
    by_cases h1 : n = p.1 <;> by_cases h2 : n = q.1 <;>
      first
        | exact absurd (h1.symm.trans h2) hne
        | simp [h1, h2, hne, Ne.symm hne]
  · rfl
  · rfl
  · rfl

theorem processTeam_idem (isM : String → Bool) (user : Nat)
    (s : SyncState) (p : String × TeamOpts) :
    processTeam isM user (processTeam isM user s p) p = processTeam isM user s p := by
  cases h : p.2.organization with
  | none =>
      rw [processTeam_eq_of_no_org isM user s p h,
        processTeam_eq_of_no_org isM user s p h]
  | some orgName =>
      rw [processTeam_eq_of_org isM user s p orgName h]
      rw [processTeam_eq_of_org isM user _ p orgName h]
      apply SyncState.ext
      · funext n
        by_cases hn : n = orgName <;> simp [hn]
      · funext t n
        by_cases hc : t = p.1 ∧ n = orgName <;> simp [hc]
      · rfl
      · rfl
      · funext t n
        by_cases hc : t = p.1 ∧ n = orgName <;>
          simp [hc, updateM2MFromGroups_idem]
      · rfl
      · rfl

theorem processTeam_comm (isM : String → Bool) (user : Nat)
    (s : SyncState) (p q : String × TeamOpts) (hne : p.1 ≠ q.1) :
    processTeam isM user (processTeam isM user s p) q
      = processTeam isM user (processTeam isM user s q) p := by
  cases hp : p.2.organization with
  | none =>
      rw [processTeam_eq_of_no_org isM user s p hp,
        processTeam_eq_of_no_org isM user (processTeam isM user s q) p hp]
  | some orgP =>
      cases hq : q.2.organization with
      | none =>
          rw [processTeam_eq_of_no_org isM user _ q hq,
            processTeam_eq_of_no_org isM user s q hq]
      | some orgQ =>
          rw [processTeam_eq_of_org isM user s p orgP hp,
            processTeam_eq_of_org isM user _ q orgQ hq,
            processTeam_eq_of_org isM user s q orgQ hq,
            processTeam_eq_of_org isM user _ p orgP hp]
          apply SyncState.ext
          · funext n
            by_cases h1 : n = orgP <;> by_cases h2 : n = orgQ <;> simp [h1, h2]
          · funext t n
            by_cases h1 : t = p.1 ∧ n = orgP <;>
              by_cases h2 : t = q.1 ∧ n = orgQ <;> simp [h1, h2]
          · rfl
          · rfl
          · funext t n
            by_cases h1 : t = p.1 ∧ n = orgP <;>
              by_cases h2 : t = q.1 ∧ n = orgQ <;>
              first
                | exact absurd (h1.1.symm.trans h2.1) hne
                | simp [h1, h2, hne, Ne.symm hne]
          · rfl
          · rfl

theorem processOrg_processTeam_comm (isM : String → Bool) (user : Nat)
    (s : SyncState) (p : String × OrgOpts) (q : String × TeamOpts) :
    processTeam isM user (processOrg isM user s p) q
      = processOrg isM user (processTeam isM user s q) p := by
  cases hq : q.2.organization with
  | none =>
      rw [processTeam_eq_of_no_org isM user _ q hq,
        processTeam_eq_of_no_org isM user s q hq]
  | some orgQ =>
      rw [processTeam_eq_of_org isM user _ q orgQ hq,
        processTeam_eq_of_org isM user s q orgQ hq]
      apply SyncState.ext
      · funext n
        by_cases h1 : n = orgQ <;> by_cases h2 : n = p.1 <;> simp [h1, h2]
      · funext t n
        by_cases hc : t = q.1 ∧ n = orgQ <;> simp [hc]
      · funext n
        by_cases h : n = p.1 <;> simp [h]
      · funext n
        by_cases h : n = p.1 <;> simp [h]
      · funext t n
        by_cases hc : t = q.1 ∧ n = orgQ <;> simp [hc]
      · rfl
      · rfl

theorem foldOrgs_idem (isM : String → Bool) (user : Nat)
    (l : List (String × OrgOpts)) (h : (l.map Prod.fst).Nodup) (s : SyncState) :
    List.foldl (processOrg isM user) (List.foldl (processOrg isM user) s l) l
      = List.foldl (processOrg isM user) s l :=
  foldl_self_idem (processOrg isM user) l
    ((pairwise_key_ne_of_nodup_map Prod.fst l h).imp
      (fun {p q} hab s' => processOrg_comm isM user s' p q hab))
    (fun a _ s' => processOrg_idem isM user s' a) s

theorem foldTeams_idem (isM : String → Bool) (user : Nat)
    (l : List (String × TeamOpts)) (h : (l.map Prod.fst).Nodup) (s : SyncState) :
    List.foldl (processTeam isM user) (List.foldl (processTeam isM user) s l) l
      = List.foldl (processTeam isM user) s l :=
  foldl_self_idem (processTeam isM user) l
    ((pairwise_key_ne_of_nodup_map Prod.fst l h).imp
      (fun {p q} hab s' => processTeam_comm isM user s' p q hab))
    (fun a _ s' => processTeam_idem isM user s' a) s

theorem foldOrgs_foldTeams_comm (isM : String → Bool) (user : Nat)
    (lo : List (String × OrgOpts)) (lt : List (String × TeamOpts)) (s : SyncState) :
    List.foldl (processTeam isM user) (List.foldl (processOrg isM user) s lo) lt
      = List.foldl (processOrg isM user) (List.foldl (processTeam isM user) s lt) lo :=
  foldl_foldl_comm (processOrg isM user) (processTeam isM user)
    (fun a b s' => processOrg_processTeam_comm isM user s' a b) lo lt s

/-- The organization/team processing of `on_populate_user` (everything
before the profile update) is idempotent when the maps have distinct
keys, as Python dicts do. -/
theorem syncCore_idem (isM : String → Bool) (user : Nat)
    (orgMap : List (String × OrgOpts)) (teamMap : List (String × TeamOpts))
    (ho : (orgMap.map Prod.fst).Nodup) (ht : (teamMap.map Prod.fst).Nodup)
    (s : SyncState) :
    List.foldl (processTeam isM user)
        (List.foldl (processOrg isM user)
          (List.foldl (processTeam isM user)
            (List.foldl (processOrg isM user) s orgMap) teamMap) orgMap) teamMap
      = List.foldl (processTeam isM user)
          (List.foldl (processOrg isM user) s orgMap) teamMap := by
  rw [← foldl_foldl_comm (processOrg isM user) (processTeam isM user)
      (fun a b s' => processOrg_processTeam_comm isM user s' a b) orgMap teamMap
      (List.foldl (processOrg isM user) s orgMap),
    foldOrgs_idem isM user orgMap ho s,
    foldTeams_idem isM user teamMap ht (List.foldl (processOrg isM user) s orgMap)]

theorem updateProfile_of_dn_ne (dn : String) (s : SyncState) (h : s.ldapDn ≠ dn) :
    updateProfile dn s = { s with ldapDn := dn, profileSaves := s.profileSaves + 1 } := by
  unfold updateProfile
  simp [h]

theorem processOrg_setProfile (isM : String → Bool) (user : Nat)
    (s : SyncState) (p : String × OrgOpts) (d : String) (k : Nat) :
    processOrg isM user { s with ldapDn := d, profileSaves := k } p
      = { processOrg isM user s p with ldapDn := d, profileSaves := k } := rfl

theorem processTeam_setProfile (isM : String → Bool) (user : Nat)
    (s : SyncState) (q : String × TeamOpts) (d : String) (k : Nat) :
    processTeam isM user { s with ldapDn := d, profileSaves := k } q
      = { processTeam isM user s q with ldapDn := d, profileSaves := k } := by
  cases hq : q.2.organization with
  | none =>
      rw [processTeam_eq_of_no_org isM user _ q hq,
        processTeam_eq_of_no_org isM user s q hq]
  | some orgQ =>
      rw [processTeam_eq_of_org isM user _ q orgQ hq,
        processTeam_eq_of_org isM user s q orgQ hq]

theorem foldOrgs_setProfile (isM : String → Bool) (user : Nat)
    (l : List (String × OrgOpts)) (s : SyncState) (d : String) (k : Nat) :
    List.foldl (processOrg isM user) { s with ldapDn := d, profileSaves := k } l
      = { List.foldl (processOrg isM user) s l with ldapDn := d, profileSaves := k } := by
  induction l generalizing s with
  | nil => rfl
  | cons p t ih =>
      rw [List.foldl_cons, List.foldl_cons, processOrg_setProfile, ih]

theorem foldTeams_setProfile (isM : String → Bool) (user : Nat)
    (l : List (String × TeamOpts)) (s : SyncState) (d : String) (k : Nat) :
    List.foldl (processTeam isM user) { s with ldapDn := d, profileSaves := k } l
      = { List.foldl (processTeam isM user) s l with ldapDn := d, profileSaves := k } := by
  induction l generalizing s with
  | nil => rfl
  | cons p t ih =>
      rw [List.foldl_cons, List.foldl_cons, processTeam_setProfile, ih]

/-- C1: invoking the group synchronization (`on_populate_user`) twice in
succession with an unchanged oracle (same group-membership snapshot
`isM`, same `ldap_dn`) and unchanged mapping tables leaves the system in
the identical state it had after the first call: every organization and
team role membership set, the set of existing organizations and teams,
the stored `ldap_dn` and the count of persisted profile writes are all
unchanged by the second run (the mapping tables are Python dicts, hence
key-distinct). -/
theorem ldap_group_sync_idempotent (isM : String → Bool) (dn : String)
    (orgMap : List (String × OrgOpts)) (teamMap : List (String × TeamOpts))
    (user : Nat) (s : SyncState)
    (ho : (orgMap.map Prod.fst).Nodup) (ht : (teamMap.map Prod.fst).Nodup) :
    onPopulateUser isM dn orgMap teamMap user
        (onPopulateUser isM dn orgMap teamMap user s)
      = onPopulateUser isM dn orgMap teamMap user s := by
  unfold onPopulateUser
  have hidem :
      List.foldl (processTeam isM user)
          (List.foldl (processOrg isM user)
            (List.foldl (processTeam isM user)
              (List.foldl (processOrg isM user) s orgMap) teamMap) orgMap) teamMap
        = List.foldl (processTeam isM user)
            (List.foldl (processOrg isM user) s orgMap) teamMap :=
    syncCore_idem isM user orgMap teamMap ho ht s
  set t := List.foldl (processTeam isM user)
    (List.foldl (processOrg isM user) s orgMap) teamMap with ht0
  by_cases hdn : t.ldapDn = dn
  · rw [updateProfile_of_dn_eq dn t hdn, hidem, updateProfile_of_dn_eq dn t hdn]
  · rw [updateProfile_of_dn_ne dn t hdn, foldOrgs_setProfile, foldTeams_setProfile,
      hidem]
    exact updateProfile_of_dn_eq dn _ rfl

/-- C1 witness: a concrete instantiation of the idempotence theorem on
the Scenario-A style mapping. -/
theorem ldap_group_sync_idempotent_witness :
    onPopulateUser (fun g => g == "cn=admins,dc=x") "uid=alice"
        [("Engineering",
          { admins := Opts.list [GEntry.str "cn=admins,dc=x"], users := Opts.bool true })]
        [("QA", { organization := Option.some "Engineering", users := Opts.bool true })]
        0
        (onPopulateUser (fun g => g == "cn=admins,dc=x") "uid=alice"
          [("Engineering",
            { admins := Opts.list [GEntry.str "cn=admins,dc=x"], users := Opts.bool true })]
          [("QA", { organization := Option.some "Engineering", users := Opts.bool true })]
          0
          { orgExists := fun _ => false, teamExists := fun _ _ => false
            orgAdmins := fun _ => ∅, orgMembers := fun _ => ∅
            teamMembers := fun _ _ => ∅, ldapDn := "", profileSaves := 0 })
      = onPopulateUser (fun g => g == "cn=admins,dc=x") "uid=alice"
          [("Engineering",
            { admins := Opts.list [GEntry.str "cn=admins,dc=x"], users := Opts.bool true })]
          [("QA", { organization := Option.some "Engineering", users := Opts.bool true })]
          0
          { orgExists := fun _ => false, teamExists := fun _ _ => false
            orgAdmins := fun _ => ∅, orgMembers := fun _ => ∅
            teamMembers := fun _ _ => ∅, ldapDn := "", profileSaves := 0 } :=
  ldap_group_sync_idempotent (fun g => g == "cn=admins,dc=x") "uid=alice"
    [("Engineering",
      { admins := Opts.list [GEntry.str "cn=admins,dc=x"], users := Opts.bool true })]
    [("QA", { organization := Option.some "Engineering", users := Opts.bool true })]
    0 _ (by decide) (by decide)

theorem updateM2MFromGroups_none (isM : String → Bool) (user : Nat)
    (rel : Finset Nat) (remove : Bool) :
    updateM2MFromGroups isM user rel Opts.none remove = rel := rfl

/-- C2: for a role whose mapping value is absent (Python `None`), the
sync performs neither an add nor a remove: `_update_m2m_from_groups`
returns the relation unchanged for every remove flag and every oracle,
and an organization entry whose `admins` and `users` values are absent
changes no admin or member set at all. -/
theorem absent_rule_skipped (isM : String → Bool) (user : Nat)
    (rel : Finset Nat) (remove : Bool) (s : SyncState)
    (orgName : String) (oo : OrgOpts)
    (ha : oo.admins = Opts.none) (hu : oo.users = Opts.none) :
    updateM2MFromGroups isM user rel Opts.none remove = rel
    ∧ (processOrg isM user s (orgName, oo)).orgAdmins = s.orgAdmins
    ∧ (processOrg isM user s (orgName, oo)).orgMembers = s.orgMembers := by
  refine ⟨rfl, ?_, ?_⟩
  · funext n
    rw [processOrg_orgAdmins]
    by_cases h : n = orgName <;> simp [h, ha, updateM2MFromGroups_none]
  · funext n
    rw [processOrg_orgMembers]
    by_cases h : n = orgName <;> simp [h, hu, updateM2MFromGroups_none]

/-- C2 witness: the empty organization entry (both rules absent) at a
concrete state. -/
theorem absent_rule_skipped_witness :
    updateM2MFromGroups (fun _ => true) 0 {0, 1} Opts.none true = {0, 1}
    ∧ (processOrg (fun _ => true) 0
        { orgExists := fun _ => false, teamExists := fun _ _ => false
          orgAdmins := fun _ => {0, 1}, orgMembers := fun _ => {1}
          teamMembers := fun _ _ => ∅, ldapDn := "", profileSaves := 0 }
        ("Engineering", {})).orgAdmins
      = ({ orgExists := fun _ => false, teamExists := fun _ _ => false
           orgAdmins := fun _ => {0, 1}, orgMembers := fun _ => {1}
           teamMembers := fun _ _ => ∅, ldapDn := "", profileSaves := 0 } : SyncState).orgAdmins
    ∧ (processOrg (fun _ => true) 0
        { orgExists := fun _ => false, teamExists := fun _ _ => false
          orgAdmins := fun _ => {0, 1}, orgMembers := fun _ => {1}
          teamMembers := fun _ _ => ∅, ldapDn := "", profileSaves := 0 }
        ("Engineering", {})).orgMembers
      = ({ orgExists := fun _ => false, teamExists := fun _ _ => false
           orgAdmins := fun _ => {0, 1}, orgMembers := fun _ => {1}
           teamMembers := fun _ _ => ∅, ldapDn := "", profileSaves := 0 } : SyncState).orgMembers :=
  absent_rule_skipped (fun _ => true) 0 {0, 1} true _ "Engineering" {}
    (by decide) (by decide)

theorem shouldAdd_list (isM : String → Bool) (es : List GEntry) :
    shouldAdd isM (Opts.list es)
      = es.any (fun g =>
          match g with
          | GEntry.str sg => isM sg
          | GEntry.other => false) := by
  cases es with
  | nil => rfl
  | cons g t => rfl

/-- C3: a group-list rule evaluates true exactly when the oracle reports
membership in at least one string entry of the list; non-string entries
are skipped and contribute false; the empty list evaluates false; a
single non-empty string behaves as the one-element list. -/
theorem anyof_rule_evaluation (isM : String → Bool) (es : List GEntry)
    (s : String) (hs : s ≠ "") :
    (shouldAdd isM (Opts.list es) = true
      ↔ ∃ nm, GEntry.str nm ∈ es ∧ isM nm = true)
    ∧ shouldAdd isM (Opts.list List.nil) = false
    ∧ shouldAdd isM (Opts.str s) = isM s := by
  refine ⟨?_, rfl, ?_⟩
  · rw [shouldAdd_list, List.any_eq_true]
    constructor
    · rintro ⟨g, hg, hpg⟩
      cases g with
      | str nm => exact ⟨nm, hg, hpg⟩
      | other => exact absurd hpg (by simp)
    · rintro ⟨nm, hmem, hm⟩
      exact ⟨GEntry.str nm, hmem, hm⟩
  · have hb : (s == "") = false := by
      simp [hs]
    simp [shouldAdd, pyTruthy, hb]

/-- C3 witness: a mixed list with a non-string entry and a matching
group, plus the singleton-string case. -/
theorem anyof_rule_evaluation_witness :
    ((shouldAdd (fun g => g == "cn=devs,dc=x")
        (Opts.list [GEntry.other, GEntry.str "cn=devs,dc=x"]) = true
      ↔ ∃ nm, GEntry.str nm ∈ [GEntry.other, GEntry.str "cn=devs,dc=x"]
          ∧ (fun g => g == "cn=devs,dc=x") nm = true)
      ∧ shouldAdd (fun g => g == "cn=devs,dc=x") (Opts.list List.nil) = false
      ∧ shouldAdd (fun g => g == "cn=devs,dc=x") (Opts.str "cn=qa,dc=x")
          = (fun g => g == "cn=devs,dc=x") "cn=qa,dc=x") :=
  anyof_rule_evaluation (fun g => g == "cn=devs,dc=x")
    [GEntry.other, GEntry.str "cn=devs,dc=x"] "cn=qa,dc=x" (by decide)

theorem updateM2MFromGroups_remove_true (isM : String → Bool) (user : Nat)
    (rel : Finset Nat) (opts : Opts)
    (hne : opts ≠ Opts.none) (hf : shouldAdd isM opts = false) :
    updateM2MFromGroups isM user rel opts true = rel.erase user := by
  cases opts with
  | none => exact absurd rfl hne
  | bool b => simp [updateM2MFromGroups, hf]
  | str s => simp [updateM2MFromGroups, hf]
  | list es => simp [updateM2MFromGroups, hf]

/-- C4: the per-role remove flags default to the entry's `remove` flag,
which defaults to `True`; hence when a rule evaluates false, is present
(not Python `None`), and no remove flag is set anywhere in the entry,
the user is removed from that role's membership set. -/
theorem default_remove_applies (isM : String → Bool) (user : Nat)
    (s : SyncState) (orgName : String) (oo : OrgOpts)
    (hr : oo.remove = Option.none)
    (hra : oo.removeAdmins = Option.none) (hru : oo.removeUsers = Option.none)
    (haf : shouldAdd isM oo.admins = false) (han : oo.admins ≠ Opts.none)
    (huf : shouldAdd isM oo.users = false) (hun : oo.users ≠ Opts.none) :
    (processOrg isM user s (orgName, oo)).orgAdmins orgName
      = (s.orgAdmins orgName).erase user
    ∧ (processOrg isM user s (orgName, oo)).orgMembers orgName
      = (s.orgMembers orgName).erase user := by
  constructor
  · rw [processOrg_orgAdmins]
    simp only [if_pos rfl, hr, hra, Option.getD_none]
    exact updateM2MFromGroups_remove_true isM user _ _ han haf
  · rw [processOrg_orgMembers]
    simp only [if_pos rfl, hr, hru, Option.getD_none]
    exact updateM2MFromGroups_remove_true isM user _ _ hun huf

/-- C4 witness: an entry with group rules the oracle rejects and no
remove flag set removes user 0 from both roles. -/
theorem default_remove_applies_witness :
    (processOrg (fun _ => false) 0
        { orgExists := fun _ => true, teamExists := fun _ _ => false
          orgAdmins := fun _ => {0, 1}, orgMembers := fun _ => {0}
          teamMembers := fun _ _ => ∅, ldapDn := "uid=alice", profileSaves := 0 }
        ("Engineering",
          { admins := Opts.list [GEntry.str "cn=admins,dc=x"]
            users := Opts.str "cn=users,dc=x" })).orgAdmins "Engineering"
      = (({0, 1} : Finset Nat)).erase 0
    ∧ (processOrg (fun _ => false) 0
        { orgExists := fun _ => true, teamExists := fun _ _ => false
          orgAdmins := fun _ => {0, 1}, orgMembers := fun _ => {0}
          teamMembers := fun _ _ => ∅, ldapDn := "uid=alice", profileSaves := 0 }
        ("Engineering",
          { admins := Opts.list [GEntry.str "cn=admins,dc=x"]
            users := Opts.str "cn=users,dc=x" })).orgMembers "Engineering"
      = (({0} : Finset Nat)).erase 0 :=
  default_remove_applies (fun _ => false) 0 _ "Engineering"
    { admins := Opts.list [GEntry.str "cn=admins,dc=x"]
      users := Opts.str "cn=users,dc=x" }
    (by decide) (by decide) (by decide) (by decide) (by decide) (by decide) (by decide)

/-- C7: at the end of every sync call the stored directory identifier
equals the session's identifier, and a profile write happened exactly
when the stored identifier differed beforehand. -/
theorem ldap_dn_write_minimization (isM : String → Bool) (dn : String)
    (orgMap : List (String × OrgOpts)) (teamMap : List (String × TeamOpts))
    (user : Nat) (s : SyncState) :
    (onPopulateUser isM dn orgMap teamMap user s).ldapDn = dn
    ∧ (onPopulateUser isM dn orgMap teamMap user s).profileSaves
        = (if s.ldapDn = dn then s.profileSaves else s.profileSaves + 1) := by
  unfold onPopulateUser
  constructor
  · exact updateProfile_ldapDn dn _
  · rw [updateProfile_profileSaves, foldTeams_profileSaves, foldOrgs_profileSaves,
      foldTeams_ldapDn, foldOrgs_ldapDn]

/-- The observable outcome of one `authenticate` / `get_user` call: the
value handed back to the caller (`Except.error` means an exception
escaped the method), whether the external protocol client was invoked,
how many error-level and exception-level log records were emitted, and
whether `feature_enabled` was consulted. -/
structure AuthOutcome (U : Type) : Type where
  result : Except String (Option U)
  clientCalled : Bool
  errorLogs : Nat
  exceptionLogs : Nat
  featureChecked : Bool

/-- The silent `return None` taken when the backend's required
configuration is absent: no log, no license check, no client call. -/
def unconfiguredOutcome {U : Type} : AuthOutcome U :=
  { result := Except.ok Option.none, clientCalled := false,
    errorLogs := 0, exceptionLogs := 0, featureChecked := false }

/-- The `logger.error(...); return None` taken when the required license
feature is disabled: one error-level log, no client call. -/
def unlicensedOutcome {U : Type} : AuthOutcome U :=
  { result := Except.ok Option.none, clientCalled := false,
    errorLogs := 1, exceptionLogs := 0, featureChecked := true }

/-- `LDAPBackend.authenticate` (backends.py lines 87-97): empty
`SERVER_URI` → silent None; unlicensed `ldap` feature → error log and
None; otherwise the delegated call runs inside `try/except Exception`,
so a client exception is logged (`logger.exception`) and becomes None. -/
def ldapAuthenticate (serverUri : String) (licensed : Bool)
    (client : Except String (Option Nat)) : AuthOutcome Nat :=
  if serverUri == "" then unconfiguredOutcome
  else if !licensed then unlicensedOutcome
  else
    match client with
    | Except.ok u =>
        { result := Except.ok u, clientCalled := true,
          errorLogs := 0, exceptionLogs := 0, featureChecked := true }
    | Except.error _ =>
        { result := Except.ok Option.none, clientCalled := true,
          errorLogs := 0, exceptionLogs := 1, featureChecked := true }

/-- `LDAPBackend.get_user` (backends.py lines 99-105): the same two
gates, then an unprotected delegation to the parent class. -/
def ldapGetUser (serverUri : String) (licensed : Bool)
    (client : Except String (Option Nat)) : AuthOutcome Nat :=
  if serverUri == "" then unconfiguredOutcome
  else if !licensed then unlicensedOutcome
  else
    { result := client, clientCalled := true,
      errorLogs := 0, exceptionLogs := 0, featureChecked := true }

/-- `RADIUSBackend.authenticate` (backends.py lines 127-133): the same
two gates, then an unprotected delegation — there is no `try/except`
around the parent call, so a client exception escapes unchanged. -/
def radiusAuthenticate (server : String) (licensed : Bool)
    (client : Except String (Option Nat)) : AuthOutcome Nat :=
  if server == "" then unconfiguredOutcome
  else if !licensed then unlicensedOutcome
  else
    { result := client, clientCalled := true,
      errorLogs := 0, exceptionLogs := 0, featureChecked := true }

/-- `RADIUSBackend.get_user` (backends.py lines 135-141): gates then
unprotected delegation. -/
def radiusGetUser (server : String) (licensed : Bool)
    (client : Except String (Option Nat)) : AuthOutcome Nat :=
  if server == "" then unconfiguredOutcome
  else if !licensed then unlicensedOutcome
  else
    { result := client, clientCalled := true,
      errorLogs := 0, exceptionLogs := 0, featureChecked := true }

/-- `TACACSPlusBackend.authenticate` (backends.py lines 172-196): empty
`TACACSPLUS_HOST` → silent None; unlicensed → error log and None; the
client call is wrapped in `try/except Exception`, so a raised exception
is logged and becomes None; on `auth.valid` the local user resolved by
`_get_or_set_user` (here `localUser`) is returned, otherwise None. -/
def tacacsAuthenticate (host : String) (licensed : Bool)
    (client : Except String Bool) (localUser : Nat) : AuthOutcome Nat :=
  if host == "" then unconfiguredOutcome
  else if !licensed then unlicensedOutcome
  else
    match client with
    | Except.error _ =>
        { result := Except.ok Option.none, clientCalled := true,
          errorLogs := 0, exceptionLogs := 1, featureChecked := true }
    | Except.ok true =>
        { result := Except.ok (Option.some localUser), clientCalled := true,
          errorLogs := 0, exceptionLogs := 0, featureChecked := true }
    | Except.ok false =>
        { result := Except.ok Option.none, clientCalled := true,
          errorLogs := 0, exceptionLogs := 0, featureChecked := true }

/-- `TACACSPlusBackend.get_user` (backends.py lines 198-207): the two
gates, then a local `User.objects.get(pk=user_id)` whose
`User.DoesNotExist` is caught and turned into None; the external
TACACS+ client is never involved. -/
def tacacsGetUser (host : String) (licensed : Bool)
    (db : Nat → Option Nat) (userId : Nat) : AuthOutcome Nat :=
  if host == "" then unconfiguredOutcome
  else if !licensed then unlicensedOutcome
  else
    match db userId with
    | Option.some u =>
        { result := Except.ok (Option.some u), clientCalled := false,
          errorLogs := 0, exceptionLogs := 0, featureChecked := true }
    | Option.none =>
        { result := Except.ok Option.none, clientCalled := false,
          errorLogs := 0, exceptionLogs := 0, featureChecked := true }

/-- Truthiness of the seven SAML settings checked by
`SAMLAuth.authenticate` / `get_user` (backends.py lines 246-249). -/
structure SamlConfig : Type where
  spEntityId : Bool
  spPublicCert : Bool
  spPrivateKey : Bool
  orgInfo : Bool
  technicalContact : Bool
  supportContact : Bool
  enabledIdps : Bool
deriving DecidableEq

/-- The `all([...])` of the seven SAML settings. -/
def samlConfigured (c : SamlConfig) : Bool :=
  c.spEntityId && c.spPublicCert && c.spPrivateKey && c.orgInfo
    && c.technicalContact && c.supportContact && c.enabledIdps

/-- `SAMLAuth.authenticate` (backends.py lines 245-254): if any of the
seven settings is falsy → silent None; unlicensed → error log and None;
then an unprotected delegation to the parent class (no `try/except`). -/
def samlAuthenticate (cfg : SamlConfig) (licensed : Bool)
    (client : Except String (Option Nat)) : AuthOutcome Nat :=
  if !samlConfigured cfg then unconfiguredOutcome
  else if !licensed then unlicensedOutcome
  else
    { result := client, clientCalled := true,
      errorLogs := 0, exceptionLogs := 0, featureChecked := true }

/-- `SAMLAuth.get_user` (backends.py lines 256-265): same shape as
`SAMLAuth.authenticate`. -/
def samlGetUser (cfg : SamlConfig) (licensed : Bool)
    (client : Except String (Option Nat)) : AuthOutcome Nat :=
  if !samlConfigured cfg then unconfiguredOutcome
  else if !licensed then unlicensedOutcome
  else
    { result := client, clientCalled := true,
      errorLogs := 0, exceptionLogs := 0, featureChecked := true }

/-- C5 counterexample: with RADIUS configured and licensed, an exception
raised by the delegated RADIUS client is returned to the caller
unchanged instead of being converted to None — `RADIUSBackend.authenticate`
has no `try/except` around the parent call, contradicting the claim for
the RADIUS (and SAML) variants. -/
theorem external_error_caught_counterexample :
    (radiusAuthenticate "radius.example.org" true
        (Except.error "socket timeout")).result
      = Except.error "socket timeout"
    ∧ (radiusAuthenticate "radius.example.org" true
        (Except.error "socket timeout")).result
      ≠ Except.ok Option.none := by
  constructor
  · rfl
  · intro h
    exact Except.noConfusion h

/-- C5 (amended): the Directory and TACACS+ backends catch any exception
from the delegated external client, emit one exception-level log and
return None; the RADIUS and SAML backends delegate without a
`try/except`, so the client's exception propagates unchanged to the
caller. -/
theorem external_error_handling_per_backend
    (uri host server : String) (cfg : SamlConfig) (e : String) (localUser : Nat)
    (h1 : (uri == "") = false) (h2 : (host == "") = false)
    (h3 : (server == "") = false) (h4 : samlConfigured cfg = true) :
    (ldapAuthenticate uri true (Except.error e)).result = Except.ok Option.none
    ∧ (ldapAuthenticate uri true (Except.error e)).exceptionLogs = 1
    ∧ (tacacsAuthenticate host true (Except.error e) localUser).result
        = Except.ok Option.none
    ∧ (tacacsAuthenticate host true (Except.error e) localUser).exceptionLogs = 1
    ∧ (radiusAuthenticate server true (Except.error e)).result = Except.error e
    ∧ (samlAuthenticate cfg true (Except.error e)).result = Except.error e := by
  refine ⟨?_, ?_, ?_, ?_, ?_, ?_⟩ <;>
    simp [ldapAuthenticate, tacacsAuthenticate, radiusAuthenticate,
      samlAuthenticate, h1, h2, h3, h4]

/-- C5 witness: the amended behavior at concrete configurations and a
concrete client error. -/
theorem external_error_handling_per_backend_witness :
    (ldapAuthenticate "ldap://ldap.example.org" true
        (Except.error "down")).result = Except.ok Option.none
    ∧ (ldapAuthenticate "ldap://ldap.example.org" true
        (Except.error "down")).exceptionLogs = 1
    ∧ (tacacsAuthenticate "tacacs.example.org" true
        (Except.error "down") 3).result = Except.ok Option.none
    ∧ (tacacsAuthenticate "tacacs.example.org" true
        (Except.error "down") 3).exceptionLogs = 1
    ∧ (radiusAuthenticate "radius.example.org" true
        (Except.error "down")).result = Except.error "down"
    ∧ (samlAuthenticate ⟨true, true, true, true, true, true, true⟩ true
        (Except.error "down")).result = Except.error "down" :=
  external_error_handling_per_backend "ldap://ldap.example.org"
    "tacacs.example.org" "radius.example.org"
    ⟨true, true, true, true, true, true, true⟩ "down" 3
    (by decide) (by decide) (by decide) (by decide)

/-- C6: with the required configuration absent every backend's
`authenticate` and `get_user` return None at once — no license check, no
log, no external call; with configuration present but the feature
unlicensed they return None after exactly one error-level log, again
without calling the external client. -/
theorem unconfigured_and_unlicensed_gating
    (licensed : Bool) (client : Except String (Option Nat))
    (valid : Except String Bool) (localUser userId : Nat)
    (db : Nat → Option Nat) (cfgOff cfgOn : SamlConfig)
    (uri host server : String)
    (hoff : samlConfigured cfgOff = false)
    (hu : (uri == "") = false) (hh : (host == "") = false)
    (hs : (server == "") = false) (hon : samlConfigured cfgOn = true) :
    ldapAuthenticate "" licensed client = unconfiguredOutcome
    ∧ ldapGetUser "" licensed client = unconfiguredOutcome
    ∧ radiusAuthenticate "" licensed client = unconfiguredOutcome
    ∧ radiusGetUser "" licensed client = unconfiguredOutcome
    ∧ tacacsAuthenticate "" licensed valid localUser = unconfiguredOutcome
    ∧ tacacsGetUser "" licensed db userId = unconfiguredOutcome
    ∧ samlAuthenticate cfgOff licensed client = unconfiguredOutcome
    ∧ samlGetUser cfgOff licensed client = unconfiguredOutcome
    ∧ ldapAuthenticate uri false client = unlicensedOutcome
    ∧ ldapGetUser uri false client = unlicensedOutcome
    ∧ radiusAuthenticate server false client = unlicensedOutcome
    ∧ radiusGetUser server false client = unlicensedOutcome
    ∧ tacacsAuthenticate host false valid localUser = unlicensedOutcome
    ∧ tacacsGetUser host false db userId = unlicensedOutcome
    ∧ samlAuthenticate cfgOn false client = unlicensedOutcome
    ∧ samlGetUser cfgOn false client = unlicensedOutcome := by
  refine ⟨rfl, rfl, rfl, rfl, rfl, rfl, ?_, ?_, ?_, ?_, ?_, ?_, ?_, ?_, ?_, ?_⟩ <;>
    simp [ldapAuthenticate, ldapGetUser, radiusAuthenticate, radiusGetUser,
      tacacsAuthenticate, tacacsGetUser, samlAuthenticate, samlGetUser,
      hoff, hu, hh, hs, hon]

/-- C6 witness: concrete configured and unconfigured instantiations. -/
theorem unconfigured_and_unlicensed_gating_witness :
    ldapAuthenticate "" true (Except.ok (Option.some 1)) = unconfiguredOutcome
    ∧ ldapGetUser "" true (Except.ok (Option.some 1)) = unconfiguredOutcome
    ∧ radiusAuthenticate "" true (Except.ok (Option.some 1)) = unconfiguredOutcome
    ∧ radiusGetUser "" true (Except.ok (Option.some 1)) = unconfiguredOutcome
    ∧ tacacsAuthenticate "" true (Except.ok true) 3 = unconfiguredOutcome
    ∧ tacacsGetUser "" true (fun _ => Option.some 3) 3 = unconfiguredOutcome
    ∧ samlAuthenticate ⟨false, true, true, true, true, true, true⟩ true
        (Except.ok (Option.some 1)) = unconfiguredOutcome
    ∧ samlGetUser ⟨false, true, true, true, true, true, true⟩ true
        (Except.ok (Option.some 1)) = unconfiguredOutcome
    ∧ ldapAuthenticate "ldap://ldap.example.org" false
        (Except.ok (Option.some 1)) = unlicensedOutcome
    ∧ ldapGetUser "ldap://ldap.example.org" false
        (Except.ok (Option.some 1)) = unlicensedOutcome
    ∧ radiusAuthenticate "radius.example.org" false
        (Except.ok (Option.some 1)) = unlicensedOutcome
    ∧ radiusGetUser "radius.example.org" false
        (Except.ok (Option.some 1)) = unlicensedOutcome
    ∧ tacacsAuthenticate "tacacs.example.org" false (Except.ok true) 3
        = unlicensedOutcome
    ∧ tacacsGetUser "tacacs.example.org" false (fun _ => Option.some 3) 3
        = unlicensedOutcome
    ∧ samlAuthenticate ⟨true, true, true, true, true, true, true⟩ false
        (Except.ok (Option.some 1)) = unlicensedOutcome
    ∧ samlGetUser ⟨true, true, true, true, true, true, true⟩ false
        (Except.ok (Option.some 1)) = unlicensedOutcome :=
  unconfigured_and_unlicensed_gating true (Except.ok (Option.some 1))
    (Except.ok true) 3 3 (fun _ => Option.some 3)
    ⟨false, true, true, true, true, true, true⟩
    ⟨true, true, true, true, true, true, true⟩
    "ldap://ldap.example.org" "tacacs.example.org" "radius.example.org"
    (by decide) (by decide) (by decide) (by decide) (by decide)

/-- The libldap option constant `ldap.OPT_NETWORK_TIMEOUT` (0x5005). -/
def OPT_NETWORK_TIMEOUT : Nat := 20485

/-- `LDAPSettings.__init__` (backends.py lines 45-53), restricted to its
effect on `CONNECTION_OPTIONS` (a dict from option constant to value):
when `ldap.OPT_NETWORK_TIMEOUT` is not among the composed options, the
entry is set to 30; otherwise the options are left as composed. -/
def ldapSettingsConnectionOptions (connectionOptions : Nat → Option Int) :
    Nat → Option Int :=
  if (connectionOptions OPT_NETWORK_TIMEOUT).isNone then
    fun k => if k = OPT_NETWORK_TIMEOUT then Option.some 30 else connectionOptions k
  else connectionOptions

/-- C8: the constructed settings always carry a network timeout — 30
when the composed configuration lacks one, the configured value
otherwise — and no other connection option is touched. -/
theorem network_timeout_default (connectionOptions : Nat → Option Int) (k : Nat) :
    ldapSettingsConnectionOptions connectionOptions k
      = if k = OPT_NETWORK_TIMEOUT
        then Option.some ((connectionOptions OPT_NETWORK_TIMEOUT).getD 30)
        else connectionOptions k := by
  unfold ldapSettingsConnectionOptions
  cases h : connectionOptions OPT_NETWORK_TIMEOUT with
  | none => by_cases hk : k = OPT_NETWORK_TIMEOUT <;> simp [h, hk]
  | some v => by_cases hk : k = OPT_NETWORK_TIMEOUT <;> simp [h, hk]

/-- Python `str.startswith`, evaluated on the character lists. -/
def pyStartsWith (s p : String) : Bool :=
  List.isPrefixOf p.data s.data

/-- `LDAPBackend._on_setting_changed` (backends.py lines 71-80): on a
`setting_changed` signal, the cached `_settings` is cleared exactly when
the changed setting's name starts with `settings_prefix`
(`'AUTH_LDAP_'`); `kwargs.get('setting', '')` defaults to the empty
string. -/
def onSettingChanged {α : Type} (settingKw : Option String)
    (cached : Option α) : Option α :=
  if pyStartsWith (settingKw.getD "") "AUTH_LDAP_" then Option.none
  else cached

/-- C9: a configuration-change notification invalidates the cached
settings snapshot if and only if the changed setting's name starts with
`AUTH_LDAP_`; any other name leaves the cache untouched. -/
theorem settings_cache_invalidation {α : Type} (settingKw : Option String)
    (cached : Option α) (snap : α) :
    (onSettingChanged settingKw (Option.some snap) = Option.none
      ↔ pyStartsWith (settingKw.getD "") "AUTH_LDAP_" = true)
    ∧ (pyStartsWith (settingKw.getD "") "AUTH_LDAP_" = false
        → onSettingChanged settingKw cached = cached) := by
  unfold onSettingChanged
  constructor
  · by_cases h : pyStartsWith (settingKw.getD "") "AUTH_LDAP_" = true <;> simp [h]
  · intro h
    simp [h]

/-- C9 witness: an `AUTH_LDAP_*` change clears a concrete cache, an
unrelated change preserves it. -/
theorem settings_cache_invalidation_witness :
    onSettingChanged (Option.some "AUTH_LDAP_SERVER_URI") (Option.some 7)
        = (Option.none : Option Nat)
    ∧ onSettingChanged (Option.some "SESSION_COOKIE_AGE") (Option.some 7)
        = Option.some 7 :=
  ⟨(settings_cache_invalidation (Option.some "AUTH_LDAP_SERVER_URI")
      (Option.some 7) 7).1.mpr (by decide),
   (settings_cache_invalidation (Option.some "SESSION_COOKIE_AGE")
      (Option.some 7) 7).2 (by decide)⟩

/-- C10: with TACACS+ configured and licensed, `get_user` answers from
the local user store — the stored user when the id exists, None instead
of an exception when it does not — and never calls the external TACACS+
client. -/
theorem tacacs_get_user_local_lookup (host : String) (db : Nat → Option Nat)
    (userId : Nat) (h : (host == "") = false) :
    (tacacsGetUser host true db userId).result = Except.ok (db userId)
    ∧ (tacacsGetUser host true db userId).clientCalled = false := by
  unfold tacacsGetUser
  cases hd : db userId with
  | none => simp [h, hd]
  | some u => simp [h, hd]

/-- C10 witness: a present id and an absent id against a concrete
single-user store. -/
theorem tacacs_get_user_local_lookup_witness :
    ((tacacsGetUser "tacacs.example.org" true
        (fun i => if i = 5 then Option.some 5 else Option.none) 5).result
      = Except.ok (Option.some 5)
    ∧ (tacacsGetUser "tacacs.example.org" true
        (fun i => if i = 5 then Option.some 5 else Option.none) 5).clientCalled = false)
    ∧ ((tacacsGetUser "tacacs.example.org" true
        (fun i => if i = 5 then Option.some 5 else Option.none) 9).result
      = Except.ok Option.none
    ∧ (tacacsGetUser "tacacs.example.org" true
        (fun i => if i = 5 then Option.some 5 else Option.none) 9).clientCalled = false) :=
  ⟨tacacs_get_user_local_lookup "tacacs.example.org"
      (fun i => if i = 5 then Option.some 5 else Option.none) 5 (by decide),
   tacacs_get_user_local_lookup "tacacs.example.org"
      (fun i => if i = 5 then Option.some 5 else Option.none) 9 (by decide)⟩
